import Mathlib

/-!
Shallow embedding of the view-once forwarding pipeline of the wp-bot
repository.

The repository contains three variants of the same message handler:

* `src/server.js` — the forwarder using the transport's structured
  view-once flags (`msg.isViewOnce || msg._data?.isViewOnce ||
  msg._data?.viewOnce`), with the whole handler body inside `try/catch`;
* `src/unnamed/part_000`, first file (the "Drive variant") — detects
  view-once by a textual heuristic on `msg.body`/`msg.id.id` and uploads
  the payload to Google Drive; the heuristic is evaluated before `try`;
* `src/unnamed/part_000`, second file (the "forwarder variant") — same
  heuristic, forwards via `client.sendMessage`; heuristic also before
  `try`.

The handlers are anonymous callbacks (`client.on('message', async msg =>
…)`); here they are named `handleServer`, `handleDrive` and
`handleForwarder`.  Each is modelled as a pure function of the inbound
message and of oracles giving the outcome of the two asynchronous
collaborator calls (`msg.downloadMedia()` and
`client.sendMessage`/`drive.files.create`); the result records the calls
the handler performed and whether an exception escaped the handler.
This is faithful: the JS closures capture only the immutable `client`,
`OWNER_NUMBER` and the module-level constants, no mutable state.

JavaScript `undefined`/`null` is modelled by `Option`; JS truthiness of
the optional values involved (`Option Bool` flags, `Option String`
fields, where `undefined`, `null`, `false` and `""` are falsy) is made
explicit in `truthy`, `jsOr` and `jsStrFalsy`.
-/

deriving instance DecidableEq for Except

/-- JS truthiness of a possibly-absent boolean attribute:
only a present `true` is truthy. -/
def truthy : Option Bool → Bool
  | some b => b
  | none => false

/-- JS `a || d` for a possibly-absent string `a` (absent and `""` are
falsy, so both fall back to the default). -/
def jsOr : Option String → String → String
  | some s, d => if s = "" then d else s
  | none, d => d

/-- JS falsiness of a possibly-absent environment string
(`!OWNER_NUMBER`): absent or empty. -/
def jsStrFalsy : Option String → Bool
  | some s => s = ""
  | none => true

/-- `hasPrefixCh needle hay`: `needle` is a prefix of `hay`
(character lists). -/
def hasPrefixCh : List Char → List Char → Bool
  | [], _ => true
  | _ :: _, [] => false
  | c :: cs, d :: ds => c == d && hasPrefixCh cs ds

/-- `hasSubCh needle hay`: `needle` occurs contiguously in `hay`
(character lists). -/
def hasSubCh (needle : List Char) : List Char → Bool
  | [] => needle.isEmpty
  | c :: t => hasPrefixCh needle (c :: t) || hasSubCh needle t

/-- JS `hay.includes(needle)` on strings. -/
def jsIncludes (hay needle : String) : Bool :=
  hasSubCh needle.data hay.data

/-- JS `s.toLowerCase()` (ASCII range, which is all the heuristic
compares against). -/
def jsToLower (s : String) : String :=
  String.mk (s.data.map Char.toLower)

/-- Message kind as reported by the transport (`msg.type`). -/
inductive MsgType
  | image
  | video
  | chat
  | sticker
  | other
deriving Repr, DecidableEq

/-- InboundMessage: the attributes of `msg` the handlers read.
`Option` values model possibly-absent (undefined) attributes; in
particular `body = none` models a message object without a body string,
on which `msg.body.toLowerCase()` throws. -/
structure Msg where
  hasMedia : Bool
  /-- structured flag `msg.isViewOnce` -/
  isViewOnce : Option Bool
  /-- transport-internal fallback `msg._data?.isViewOnce` -/
  rawIsViewOnce : Option Bool
  /-- transport-internal fallback `msg._data?.viewOnce` -/
  rawViewOnce : Option Bool
  /-- `msg.type` -/
  type : MsgType
  /-- `msg.body` -/
  body : Option String
  /-- `msg.id.id` -/
  idId : String
  /-- `msg.from` -/
  from_ : String
deriving Repr, DecidableEq

/-- MediaPayload: result of a successful `msg.downloadMedia()`.
`filename` may be absent. -/
structure MediaPayload where
  mimetype : String
  data : String
  filename : Option String
deriving Repr, DecidableEq

/-- The outgoing media object `new MessageMedia(mimetype, data,
filename)`; the third argument may be `undefined`. -/
structure MessageMedia where
  mimetype : String
  data : String
  filename : Option String
deriving Repr, DecidableEq

/-- One `client.sendMessage(dest, media, { caption })` invocation. -/
structure SendCall where
  dest : String
  media : MessageMedia
  caption : String
deriving Repr, DecidableEq

/-- One `uploadToDrive(buffer, mimeType, filename)` invocation; the
buffer is recorded by the Base64 string it was decoded from. -/
structure UploadCall where
  dataB64 : String
  mimeType : String
  filename : String
deriving Repr, DecidableEq

/-- Observable outcome of one invocation of a forwarding handler. -/
structure HandlerResult where
  downloadCalls : Nat
  sendCalls : List SendCall
  /-- true when an exception escaped the handler callback -/
  uncaught : Bool
deriving Repr, DecidableEq

/-- Observable outcome of one invocation of the Drive handler. -/
structure DriveResult where
  downloadCalls : Nat
  uploadCalls : List UploadCall
  uncaught : Bool
deriving Repr, DecidableEq

/-- Outcome of `msg.downloadMedia()`: it can throw (`Except.error`),
resolve to nothing, or resolve to a payload. -/
abbrev DownloadOutcome := Except Unit (Option MediaPayload)

/-- Outcome of a delivery/upload collaborator call: success or throw. -/
abbrev CallOutcome := Except Unit Unit

/-- `server.js` lines 86–89: `msg.isViewOnce || msg._data?.isViewOnce ||
msg._data?.viewOnce`. -/
def serverIsViewOnce (msg : Msg) : Bool :=
  truthy msg.isViewOnce || truthy msg.rawIsViewOnce || truthy msg.rawViewOnce

/-- `part_000` heuristic: `msg.body.toLowerCase().includes('view once')
|| msg.id.id.includes('viewonce')`.  Throws (`Except.error`) when the
body attribute is absent. -/
def heurIsViewOnce (msg : Msg) : Except Unit Bool :=
  match msg.body with
  | none => .error ()
  | some b => .ok (jsIncludes (jsToLower b) "view once" || jsIncludes msg.idId "viewonce")

/-- Caption built by `server.js` lines 110–114. -/
def mkCaptionServer (sender timestamp : String) : String :=
  "View Once Media\n\nFrom: " ++ sender ++ "\nTime: " ++ timestamp

/-- Caption built by the forwarder variant, `part_000` line 208. -/
def mkCaptionForwarder (sender timestamp : String) : String :=
  "🔒 *View Once Media*\n\nFrom: " ++ sender ++ "\nReceived: " ++ timestamp

/-- `server.js` message handler (lines 82–125).  The whole body is
inside `try { … } catch`, so `uncaught` is always false. -/
def handleServer (owner : String) (msg : Msg) (dl : DownloadOutcome)
    (send : CallOutcome) (timestamp : String) : HandlerResult :=
  if msg.hasMedia then
    if serverIsViewOnce msg then
      match dl with
      | .error _ => ⟨1, [], false⟩
      | .ok none => ⟨1, [], false⟩
      | .ok (some m) =>
        if m.data = "" then ⟨1, [], false⟩
        else
          let fm : MessageMedia := ⟨m.mimetype, m.data, some (jsOr m.filename "viewonce")⟩
          let call : SendCall := ⟨owner, fm, mkCaptionServer msg.from_ timestamp⟩
          match send with
          | .error _ => ⟨1, [call], false⟩
          | .ok _ => ⟨1, [call], false⟩
    else ⟨0, [], false⟩
  else ⟨0, [], false⟩

/-- Forwarder-variant message handler (`part_000` lines 182–220).  The
type guard and the heuristic are evaluated before `try`, so a failure of
the heuristic escapes the handler; `media.filename` is passed to
`MessageMedia` without a default. -/
def handleForwarder (owner : String) (msg : Msg) (dl : DownloadOutcome)
    (send : CallOutcome) (timestamp : String) : HandlerResult :=
  if msg.type = MsgType.image ∨ msg.type = MsgType.video then
    match heurIsViewOnce msg with
    | .error _ => ⟨0, [], true⟩
    | .ok false => ⟨0, [], false⟩
    | .ok true =>
      match dl with
      | .error _ => ⟨1, [], false⟩
      | .ok none => ⟨1, [], false⟩
      | .ok (some m) =>
        if m.data = "" then ⟨1, [], false⟩
        else
          let fm : MessageMedia := ⟨m.mimetype, m.data, m.filename⟩
          let call : SendCall := ⟨owner, fm, mkCaptionForwarder msg.from_ timestamp⟩
          match send with
          | .error _ => ⟨1, [call], false⟩
          | .ok _ => ⟨1, [call], false⟩
  else ⟨0, [], false⟩

/-- JS `isoTimestamp.replace(/[:.]/g, '-')` (`part_000` line 95). -/
def sanitizeTs (s : String) : String :=
  String.mk (s.data.map (fun c => if c = ':' ∨ c = '.' then '-' else c))

/-- Drive-variant message handler (`part_000` lines 78–106).  The MIME
type and extension of the upload are derived from `msg.type` alone; the
heuristic is evaluated before `try`. -/
def handleDrive (msg : Msg) (dl : DownloadOutcome) (upload : CallOutcome)
    (isoTimestamp : String) : DriveResult :=
  if msg.type = MsgType.image ∨ msg.type = MsgType.video then
    match heurIsViewOnce msg with
    | .error _ => ⟨0, [], true⟩
    | .ok false => ⟨0, [], false⟩
    | .ok true =>
      match dl with
      | .error _ => ⟨1, [], false⟩
      | .ok none => ⟨1, [], false⟩
      | .ok (some m) =>
        if m.data = "" then ⟨1, [], false⟩
        else
          let mimeType := if msg.type = MsgType.image then "image/jpeg" else "video/mp4"
          let ext := if msg.type = MsgType.image then "jpg" else "mp4"
          let filename := "viewonce-" ++ sanitizeTs isoTimestamp ++ "." ++ ext
          let call : UploadCall := ⟨m.data, mimeType, filename⟩
          match upload with
          | .error _ => ⟨1, [call], false⟩
          | .ok _ => ⟨1, [call], false⟩
  else ⟨0, [], false⟩

/-- Startup outcome: `exitCode = some c` means the process called
`process.exit(c)` before the message handler was registered. -/
structure StartupResult where
  exitCode : Option Nat
  handlerRegistered : Bool
deriving Repr, DecidableEq

/-- `server.js` lines 15–18: `if (!OWNER_NUMBER) { console.error(…);
process.exit(1); }`, executed before any `client.on` subscription. -/
def startupServer (ownerNumber : Option String) : StartupResult :=
  if jsStrFalsy ownerNumber then ⟨some 1, false⟩ else ⟨none, true⟩

/-- Forwarder variant, `part_000` lines 148–151: the same guard. -/
def startupForwarder (ownerNumber : Option String) : StartupResult :=
  if jsStrFalsy ownerNumber then ⟨some 1, false⟩ else ⟨none, true⟩

/-- One inbound event together with the outcomes of the collaborator
calls its handling would make. -/
structure ServerEvent where
  msg : Msg
  dl : DownloadOutcome
  send : CallOutcome
  timestamp : String

/-- The event stream processed by the `server.js` handler: events are
dispatched independently, the handler threads no state. -/
def runServer (owner : String) (evs : List ServerEvent) : List HandlerResult :=
  evs.map (fun e => handleServer owner e.msg e.dl e.send e.timestamp)

/-- Same for the forwarder variant. -/
def runForwarder (owner : String) (evs : List ServerEvent) : List HandlerResult :=
  evs.map (fun e => handleForwarder owner e.msg e.dl e.send e.timestamp)

/-- Total number of delivery calls over a batch of handler results. -/
def totalSends (rs : List HandlerResult) : Nat :=
  (rs.map (fun r => r.sendCalls.length)).sum

example : jsIncludes (jsToLower "scan this View Once pic") "view once" = true := by decide
example : jsIncludes "hello there" "view once" = false := by decide
example : sanitizeTs "2026-10-12T10:00:00.000Z" = "2026-10-12T10-00-00-000Z" := by decide

/-! ### Helper lemmas -/

theorem truthy_eq_true (o : Option Bool) : truthy o = true ↔ o = some true := by
  cases o with
  | none => simp [truthy]
  | some b => cases b <;> simp [truthy]

theorem hasPrefixCh_self_append (l t : List Char) : hasPrefixCh l (l ++ t) = true := by
  induction l with
  | nil => rfl
  | cons c cs ih => simp [hasPrefixCh, ih]

theorem hasSubCh_of_hasPrefixCh (n h : List Char) (hp : hasPrefixCh n h = true) :
    hasSubCh n h = true := by
  cases h with
  | nil =>
    cases n with
    | nil => rfl
    | cons c cs => simp [hasPrefixCh] at hp
  | cons c t => simp [hasSubCh, hp]

theorem hasSubCh_append_mid (p n s : List Char) : hasSubCh n (p ++ (n ++ s)) = true := by
  induction p with
  | nil => exact hasSubCh_of_hasPrefixCh n (n ++ s) (hasPrefixCh_self_append n s)
  | cons c cs ih => simp [hasSubCh, ih]

theorem strData_append (a b : String) : (a ++ b).data = a.data ++ b.data := by
  cases a; cases b; rfl

/-- The caption built by `server.js` always contains the sender. -/
theorem jsIncludes_mkCaptionServer (sender timestamp : String) :
    jsIncludes (mkCaptionServer sender timestamp) sender = true := by
  unfold jsIncludes mkCaptionServer
  rw [strData_append, strData_append, strData_append,
    List.append_assoc, List.append_assoc]
  exact hasSubCh_append_mid _ _ _

/-- The caption built by the forwarder variant always contains the sender. -/
theorem jsIncludes_mkCaptionForwarder (sender timestamp : String) :
    jsIncludes (mkCaptionForwarder sender timestamp) sender = true := by
  unfold jsIncludes mkCaptionForwarder
  rw [strData_append, strData_append, strData_append,
    List.append_assoc, List.append_assoc]
  exact hasSubCh_append_mid _ _ _

/-- With a present body, the heuristic is the plain disjunction of its
two textual signals and cannot throw. -/
theorem heurIsViewOnce_some (msg : Msg) (b : String) (hb : msg.body = some b) :
    heurIsViewOnce msg =
      .ok (jsIncludes (jsToLower b) "view once" || jsIncludes msg.idId "viewonce") := by
  simp [heurIsViewOnce, hb]

/-! ### Claim theorems -/

/-- C2: Each variant's ephemerality decision is exactly the disjunction
of the signals that variant consults — in `server.js` the structured
flag or either transport-internal fallback flag, in the heuristic
(earliest) variants the body-text match or the identifier match — any
affirmative signal qualifies and leads to the download call; and when
every signal of the variant is absent or false the message is ignored:
no download and no delivery/upload call occurs. -/
theorem claim_C2_ephemeral_disjunction :
    (∀ msg : Msg, serverIsViewOnce msg = true ↔
      (msg.isViewOnce = some true ∨ msg.rawIsViewOnce = some true ∨
        msg.rawViewOnce = some true))
    ∧ (∀ (msg : Msg) (b : String), msg.body = some b →
      (heurIsViewOnce msg = .ok true ↔
        (jsIncludes (jsToLower b) "view once" = true ∨
          jsIncludes msg.idId "viewonce" = true)))
    ∧ (∀ owner msg dl send t, msg.hasMedia = true → serverIsViewOnce msg = true →
      (handleServer owner msg dl send t).downloadCalls = 1)
    ∧ (∀ owner msg dl send t,
      (msg.type = MsgType.image ∨ msg.type = MsgType.video) →
      heurIsViewOnce msg = .ok true →
      (handleForwarder owner msg dl send t).downloadCalls = 1)
    ∧ (∀ owner msg dl send t, serverIsViewOnce msg = false →
      handleServer owner msg dl send t = ⟨0, [], false⟩)
    ∧ (∀ owner msg dl send t, heurIsViewOnce msg ≠ .ok true →
      (handleForwarder owner msg dl send t).downloadCalls = 0 ∧
      (handleForwarder owner msg dl send t).sendCalls = [])
    ∧ (∀ msg dl up t, heurIsViewOnce msg ≠ .ok true →
      (handleDrive msg dl up t).downloadCalls = 0 ∧
      (handleDrive msg dl up t).uploadCalls = []) := by
  refine ⟨?_, ?_, ?_, ?_, ?_, ?_, ?_⟩
  · intro msg
    simp [serverIsViewOnce, truthy_eq_true, or_assoc]
  · intro msg b hb
    rw [heurIsViewOnce_some msg b hb]
    simp
  · intro owner msg dl send t hm hv
    rcases dl with e | om
    · simp [handleServer, hm, hv]
    · rcases om with _ | m
      · simp [handleServer, hm, hv]
      · by_cases hd : m.data = "" <;> cases send <;> simp [handleServer, hm, hv, hd]
  · intro owner msg dl send t hty hq
    rcases dl with e | om
    · simp [handleForwarder, hty, hq]
    · rcases om with _ | m
      · simp [handleForwarder, hty, hq]
      · by_cases hd : m.data = "" <;> cases send <;> simp [handleForwarder, hty, hq, hd]
  · intro owner msg dl send t hv
    by_cases hm : msg.hasMedia = true <;> simp [handleServer, hm, hv]
  · intro owner msg dl send t hq
    by_cases hty : msg.type = MsgType.image ∨ msg.type = MsgType.video
    · rcases hh : heurIsViewOnce msg with e | bb
      · simp [handleForwarder, hty, hh]
      · cases bb with
        | false => simp [handleForwarder, hty, hh]
        | true => exact absurd hh hq
    · simp [handleForwarder, hty]
  · intro msg dl up t hq
    by_cases hty : msg.type = MsgType.image ∨ msg.type = MsgType.video
    · rcases hh : heurIsViewOnce msg with e | bb
      · simp [handleDrive, hty, hh]
      · cases bb with
        | false => simp [handleDrive, hty, hh]
        | true => exact absurd hh hq
    · simp [handleDrive, hty]

/-- Concrete media message whose structured view-once flag is set and
whose body and identifier match no heuristic. -/
def structFlagMsg : Msg :=
  { hasMedia := true, isViewOnce := some true, rawIsViewOnce := none,
    rawViewOnce := none, type := MsgType.image, body := some "hello",
    idId := "3EB0ABC123", from_ := "15551234567@c.us" }

/-- Concrete media message that only the textual heuristic flags. -/
def heurMsg : Msg :=
  { hasMedia := true, isViewOnce := none, rawIsViewOnce := none,
    rawViewOnce := none, type := MsgType.image, body := some "View Once photo",
    idId := "3EB0DEF", from_ := "15559876543@c.us" }

/-- Concrete message carrying no ephemeral signal at all. -/
def plainMediaMsg : Msg :=
  { hasMedia := true, isViewOnce := some false, rawIsViewOnce := none,
    rawViewOnce := none, type := MsgType.image, body := some "sent a photo",
    idId := "3EB0PLAIN", from_ := "15552223333@c.us" }

/-- Concrete non-empty downloaded payload. -/
def jpegPayload : MediaPayload := ⟨"image/jpeg", "QUJDRA==", some "photo.jpg"⟩

theorem claim_C2_ephemeral_disjunction_witness :
    serverIsViewOnce structFlagMsg = true ∧
    heurIsViewOnce heurMsg = .ok true ∧
    (handleServer "owner@c.us" structFlagMsg (.ok (some jpegPayload)) (.ok ())
      "10/12/2026").downloadCalls = 1 ∧
    (handleForwarder "owner@c.us" heurMsg (.ok (some jpegPayload)) (.ok ())
      "10/12/2026").downloadCalls = 1 ∧
    handleServer "owner@c.us" plainMediaMsg (.ok (some jpegPayload)) (.ok ())
      "10/12/2026" = ⟨0, [], false⟩ ∧
    (handleForwarder "owner@c.us" plainMediaMsg (.ok (some jpegPayload)) (.ok ())
      "10/12/2026").sendCalls = [] ∧
    (handleDrive plainMediaMsg (.ok (some jpegPayload)) (.ok ())
      "2026-10-12T10:00:00.000Z").uploadCalls = [] := by
  refine ⟨?_, ?_, ?_, ?_, ?_, ?_, ?_⟩
  · exact (claim_C2_ephemeral_disjunction.1 structFlagMsg).mpr (Or.inl rfl)
  · exact (claim_C2_ephemeral_disjunction.2.1 heurMsg "View Once photo" rfl).mpr
      (Or.inl (by decide))
  · exact claim_C2_ephemeral_disjunction.2.2.1 "owner@c.us" structFlagMsg _ _ _
      rfl (by decide)
  · exact claim_C2_ephemeral_disjunction.2.2.2.1 "owner@c.us" heurMsg _ _ _
      (Or.inl rfl) (by decide)
  · exact claim_C2_ephemeral_disjunction.2.2.2.2.1 "owner@c.us" plainMediaMsg _ _ _
      (by decide)
  · exact (claim_C2_ephemeral_disjunction.2.2.2.2.2.1 "owner@c.us" plainMediaMsg _ _ _
      (by decide)).2
  · exact (claim_C2_ephemeral_disjunction.2.2.2.2.2.2 plainMediaMsg _ _ _
      (by decide)).2

/-- C8: A message with no media attachment triggers no download and no
delivery/upload in any variant.  `server.js` tests `msg.hasMedia`
directly; the `part_000` variants test `msg.type`, so the transport
coherence "a message whose type is image or video carries media" links
their guard to media presence. -/
theorem claim_C8_no_media_no_calls
    (owner : String) (msg : Msg) (dl : DownloadOutcome) (send up : CallOutcome)
    (t : String) (hnm : msg.hasMedia = false)
    (hco : (msg.type = MsgType.image ∨ msg.type = MsgType.video) → msg.hasMedia = true) :
    handleServer owner msg dl send t = ⟨0, [], false⟩ ∧
    handleForwarder owner msg dl send t = ⟨0, [], false⟩ ∧
    handleDrive msg dl up t = ⟨0, [], false⟩ := by
  have hty : ¬(msg.type = MsgType.image ∨ msg.type = MsgType.video) := by
    intro h
    rw [hco h] at hnm
    exact Bool.noConfusion hnm
  exact ⟨by simp [handleServer, hnm], by simp [handleForwarder, hty],
    by simp [handleDrive, hty]⟩

/-- Concrete mediafree text message. -/
def textMsg : Msg :=
  { hasMedia := false, isViewOnce := none, rawIsViewOnce := none,
    rawViewOnce := none, type := MsgType.chat, body := some "hi there",
    idId := "3EB0TXT", from_ := "15554445555@c.us" }

theorem claim_C8_no_media_no_calls_witness :
    handleServer "owner@c.us" textMsg (.ok (some jpegPayload)) (.ok ()) "T"
      = ⟨0, [], false⟩ ∧
    handleForwarder "owner@c.us" textMsg (.ok (some jpegPayload)) (.ok ()) "T"
      = ⟨0, [], false⟩ ∧
    handleDrive textMsg (.ok (some jpegPayload)) (.ok ()) "T" = ⟨0, [], false⟩ :=
  claim_C8_no_media_no_calls "owner@c.us" textMsg (.ok (some jpegPayload))
    (.ok ()) (.ok ()) "T" rfl (by decide)

/-- C9: One handler invocation makes at most one download call, in
every variant, whatever the message and the collaborator outcomes; the
handlers thread no state, so nothing is cached or retried. -/
theorem claim_C9_at_most_one_download
    (owner : String) (msg : Msg) (dl : DownloadOutcome) (send up : CallOutcome)
    (t : String) :
    (handleServer owner msg dl send t).downloadCalls ≤ 1 ∧
    (handleForwarder owner msg dl send t).downloadCalls ≤ 1 ∧
    (handleDrive msg dl up t).downloadCalls ≤ 1 := by
  refine ⟨?_, ?_, ?_⟩
  · unfold handleServer
    repeat' split
    all_goals simp
  · unfold handleForwarder
    repeat' split
    all_goals simp
  · unfold handleDrive
    repeat' split
    all_goals simp

/-- C4: When the download resolves to an absent payload or one with
empty data, no delivery/upload call happens in any variant, whatever
the message; no exception escapes `server.js` unconditionally, and none
escapes the `part_000` variants on any message qualifying under their
heuristic, since a qualifying message's handling is entirely inside
their `try` block. -/
theorem claim_C4_empty_download
    (owner : String) (msg : Msg) (dl : DownloadOutcome) (send up : CallOutcome)
    (t : String)
    (he : dl = .ok none ∨ ∃ m, dl = .ok (some m) ∧ m.data = "") :
    (handleServer owner msg dl send t).sendCalls = [] ∧
    (handleServer owner msg dl send t).uncaught = false ∧
    (handleForwarder owner msg dl send t).sendCalls = [] ∧
    (handleDrive msg dl up t).uploadCalls = [] ∧
    (heurIsViewOnce msg = .ok true →
      (handleForwarder owner msg dl send t).uncaught = false ∧
      (handleDrive msg dl up t).uncaught = false) := by
  rcases he with h | ⟨m, h, hd⟩ <;> subst h <;>
    refine ⟨?_, ?_, ?_, ?_, fun hq => ⟨?_, ?_⟩⟩ <;>
    first
      | (unfold handleServer
         repeat' split
         all_goals first | rfl | simp_all)
      | (unfold handleForwarder
         repeat' split
         all_goals first | rfl | simp_all)
      | (unfold handleDrive
         repeat' split
         all_goals first | rfl | simp_all)

theorem claim_C4_empty_download_witness :
    (handleServer "owner@c.us" structFlagMsg (.ok none) (.ok ()) "T").sendCalls = [] ∧
    (handleServer "owner@c.us" structFlagMsg (.ok none) (.ok ()) "T").uncaught = false ∧
    (handleForwarder "owner@c.us" heurMsg (.ok none) (.ok ()) "T").sendCalls = [] ∧
    (handleDrive heurMsg (.ok none) (.ok ()) "T").uploadCalls = [] ∧
    (handleForwarder "owner@c.us" heurMsg (.ok none) (.ok ()) "T").uncaught = false ∧
    (handleDrive heurMsg (.ok none) (.ok ()) "T").uncaught = false :=
  ⟨(claim_C4_empty_download "owner@c.us" structFlagMsg (.ok none) (.ok ()) (.ok ())
      "T" (Or.inl rfl)).1,
    (claim_C4_empty_download "owner@c.us" structFlagMsg (.ok none) (.ok ()) (.ok ())
      "T" (Or.inl rfl)).2.1,
    (claim_C4_empty_download "owner@c.us" heurMsg (.ok none) (.ok ()) (.ok ())
      "T" (Or.inl rfl)).2.2.1,
    (claim_C4_empty_download "owner@c.us" heurMsg (.ok none) (.ok ()) (.ok ())
      "T" (Or.inl rfl)).2.2.2.1,
    ((claim_C4_empty_download "owner@c.us" heurMsg (.ok none) (.ok ()) (.ok ())
      "T" (Or.inl rfl)).2.2.2.2 (by decide)).1,
    ((claim_C4_empty_download "owner@c.us" heurMsg (.ok none) (.ok ()) (.ok ())
      "T" (Or.inl rfl)).2.2.2.2 (by decide)).2⟩

/-- C6: The `OWNER_NUMBER` startup guard of `server.js` and of the
forwarder variant: a missing (or empty, hence JS-falsy) destination
makes the process exit with status 1 before the message handler is
registered; with the destination present, startup proceeds and no exit
occurs; and an exit at this guard happens only for a missing
destination, always with a non-zero status and with the handler not yet
registered. -/
theorem claim_C6_startup_guard (ownerNumber : Option String) :
    (jsStrFalsy ownerNumber = true →
      startupServer ownerNumber = ⟨some 1, false⟩ ∧
      startupForwarder ownerNumber = ⟨some 1, false⟩) ∧
    (jsStrFalsy ownerNumber = false →
      startupServer ownerNumber = ⟨none, true⟩ ∧
      startupForwarder ownerNumber = ⟨none, true⟩) ∧
    (∀ c, (startupServer ownerNumber).exitCode = some c →
      jsStrFalsy ownerNumber = true ∧ c ≠ 0 ∧
      (startupServer ownerNumber).handlerRegistered = false) := by
  by_cases h : jsStrFalsy ownerNumber = true <;>
    simp [startupServer, startupForwarder, h]

theorem claim_C6_startup_guard_witness :
    startupServer none = ⟨some 1, false⟩ ∧
    startupForwarder none = ⟨some 1, false⟩ ∧
    startupServer (some "15551234567@c.us") = ⟨none, true⟩ :=
  ⟨((claim_C6_startup_guard none).1 rfl).1,
    ((claim_C6_startup_guard none).1 rfl).2,
    ((claim_C6_startup_guard (some "15551234567@c.us")).2.1 (by decide)).1⟩

/-- C7: Handling is stateless and not idempotent: the handlers are
functions of the single event only (the JS callbacks capture no mutable
state), so dispatching the same event twice produces two delivery
calls — in `server.js` for every message its flag check qualifies, and
in the forwarder variant for every message its heuristic qualifies —
given a non-empty downloaded payload. -/
theorem claim_C7_duplicate_delivery
    (owner : String) (msg : Msg) (m : MediaPayload) (send : CallOutcome)
    (t : String) (hd : m.data ≠ "") :
    (msg.hasMedia = true → serverIsViewOnce msg = true →
      totalSends (runServer owner
        [⟨msg, .ok (some m), send, t⟩, ⟨msg, .ok (some m), send, t⟩]) = 2) ∧
    ((msg.type = MsgType.image ∨ msg.type = MsgType.video) →
      heurIsViewOnce msg = .ok true →
      totalSends (runForwarder owner
        [⟨msg, .ok (some m), send, t⟩, ⟨msg, .ok (some m), send, t⟩]) = 2) := by
  constructor
  · intro hm hv
    have hs : (handleServer owner msg (.ok (some m)) send t).sendCalls.length = 1 := by
      cases send <;> simp [handleServer, hm, hv, hd]
    simp [totalSends, runServer, hs]
  · intro hty hq
    have hf : (handleForwarder owner msg (.ok (some m)) send t).sendCalls.length = 1 := by
      cases send <;> simp [handleForwarder, hty, hq, hd]
    simp [totalSends, runForwarder, hf]

theorem claim_C7_duplicate_delivery_witness :
    totalSends (runServer "owner@c.us"
      [⟨structFlagMsg, .ok (some jpegPayload), .ok (), "T"⟩,
        ⟨structFlagMsg, .ok (some jpegPayload), .ok (), "T"⟩]) = 2 ∧
    totalSends (runForwarder "owner@c.us"
      [⟨heurMsg, .ok (some jpegPayload), .ok (), "T"⟩,
        ⟨heurMsg, .ok (some jpegPayload), .ok (), "T"⟩]) = 2 :=
  ⟨(claim_C7_duplicate_delivery "owner@c.us" structFlagMsg jpegPayload (.ok ()) "T"
      (by decide)).1 rfl (by decide),
    (claim_C7_duplicate_delivery "owner@c.us" heurMsg jpegPayload (.ok ()) "T"
      (by decide)).2 (Or.inl rfl) (by decide)⟩

/-- C10: In the Drive variant the MIME type and the file extension of
the upload come from `msg.type` alone — image is always uploaded as
`image/jpeg`/`.jpg`, video always as `video/mp4`/`.mp4` — whatever MIME
type the downloaded payload (here an arbitrary `m`) reported. -/
theorem claim_C10_drive_mime_by_kind
    (msg : Msg) (m : MediaPayload) (up : CallOutcome) (isoT : String)
    (hq : heurIsViewOnce msg = .ok true) (hd : m.data ≠ "") :
    (msg.type = MsgType.image →
      (handleDrive msg (.ok (some m)) up isoT).uploadCalls =
        [⟨m.data, "image/jpeg", "viewonce-" ++ sanitizeTs isoT ++ "." ++ "jpg"⟩]) ∧
    (msg.type = MsgType.video →
      (handleDrive msg (.ok (some m)) up isoT).uploadCalls =
        [⟨m.data, "video/mp4", "viewonce-" ++ sanitizeTs isoT ++ "." ++ "mp4"⟩]) := by
  constructor <;> intro hty <;> cases up <;>
    simp [handleDrive, hty, hq, hd]

/-- Payload whose reported MIME type disagrees with the message kind:
the Drive variant ignores it. -/
def pngPayload : MediaPayload := ⟨"image/png", "UE5HREFUQQ==", none⟩

theorem claim_C10_drive_mime_by_kind_witness :
    (handleDrive heurMsg (.ok (some pngPayload)) (.ok ())
      "2026-10-12T10:00:00.000Z").uploadCalls =
      [⟨"UE5HREFUQQ==", "image/jpeg", "viewonce-2026-10-12T10-00-00-000Z.jpg"⟩] := by
  have h := (claim_C10_drive_mime_by_kind heurMsg pngPayload (.ok ())
    "2026-10-12T10:00:00.000Z" (by decide) (by decide)).1 rfl
  rw [h]
  rfl

/-- C1 counterexample: this media message has the structured is-ephemeral
flag set (`isViewOnce = some true`) and the download would return a
non-empty payload, yet the forwarder-variant handler — one of the
handlers the claim is about — performs zero download calls and zero
delivery calls, because it only consults the textual/identifier
heuristic, which this message fails. -/
theorem claim_C1_counterexample :
    handleForwarder "owner@c.us" structFlagMsg (.ok (some jpegPayload)) (.ok ())
      "10/12/2026" = ⟨0, [], false⟩ := by
  decide

/-- C1 (amended): In the `server.js` handler, every media message whose
structured is-ephemeral flag is true triggers exactly one download
call, and, when the download returns a non-empty payload, exactly one
delivery call addressed to the configured destination whose caption
contains the original sender identifier.  The forwarder variant gives
the same guarantee only for messages its textual/identifier heuristic
flags; it ignores the structured flag. -/
theorem claim_C1_amended :
    (∀ owner msg dl send t, msg.hasMedia = true → msg.isViewOnce = some true →
      (handleServer owner msg dl send t).downloadCalls = 1) ∧
    (∀ owner msg m send t, msg.hasMedia = true → msg.isViewOnce = some true →
      m.data ≠ "" →
      (handleServer owner msg (.ok (some m)) send t).sendCalls.length = 1 ∧
      ∀ c ∈ (handleServer owner msg (.ok (some m)) send t).sendCalls,
        c.dest = owner ∧ jsIncludes c.caption msg.from_ = true) ∧
    (∀ owner msg m send t, (msg.type = MsgType.image ∨ msg.type = MsgType.video) →
      heurIsViewOnce msg = .ok true → m.data ≠ "" →
      (handleForwarder owner msg (.ok (some m)) send t).downloadCalls = 1 ∧
      (handleForwarder owner msg (.ok (some m)) send t).sendCalls.length = 1 ∧
      ∀ c ∈ (handleForwarder owner msg (.ok (some m)) send t).sendCalls,
        c.dest = owner ∧ jsIncludes c.caption msg.from_ = true) := by
  refine ⟨?_, ?_, ?_⟩
  · intro owner msg dl send t hm hv
    have hsvo : serverIsViewOnce msg = true := by
      simp [serverIsViewOnce, truthy, hv]
    rcases dl with e | om
    · simp [handleServer, hm, hsvo]
    · rcases om with _ | m
      · simp [handleServer, hm, hsvo]
      · by_cases hd : m.data = "" <;> cases send <;>
          simp [handleServer, hm, hsvo, hd]
  · intro owner msg m send t hm hv hd
    have hsvo : serverIsViewOnce msg = true := by
      simp [serverIsViewOnce, truthy, hv]
    cases send <;>
      simp [handleServer, hm, hsvo, hd, jsIncludes_mkCaptionServer]
  · intro owner msg m send t hty hq hd
    cases send <;>
      simp [handleForwarder, hty, hq, hd, jsIncludes_mkCaptionForwarder]

theorem claim_C1_amended_witness :
    (handleServer "owner@c.us" structFlagMsg (.ok (some jpegPayload)) (.ok ())
      "10/12/2026").downloadCalls = 1 ∧
    (handleServer "owner@c.us" structFlagMsg (.ok (some jpegPayload)) (.ok ())
      "10/12/2026").sendCalls.length = 1 ∧
    (handleForwarder "owner@c.us" heurMsg (.ok (some jpegPayload)) (.ok ())
      "10/12/2026").sendCalls.length = 1 :=
  ⟨claim_C1_amended.1 "owner@c.us" structFlagMsg _ _ _ rfl rfl,
    (claim_C1_amended.2.1 "owner@c.us" structFlagMsg jpegPayload (.ok ())
      "10/12/2026" rfl rfl (by decide)).1,
    (claim_C1_amended.2.2 "owner@c.us" heurMsg jpegPayload (.ok ())
      "10/12/2026" (Or.inl rfl) (by decide) (by decide)).2.1⟩

/-- Concrete media message whose body attribute is absent: evaluating
the `part_000` heuristic on it throws. -/
def noBodyMsg : Msg :=
  { hasMedia := true, isViewOnce := none, rawIsViewOnce := none,
    rawViewOnce := none, type := MsgType.image, body := none,
    idId := "3EB0NOBODY", from_ := "15550001111@c.us" }

/-- C3 counterexample: in the forwarder variant the ephemerality
heuristic (`msg.body.toLowerCase()…`) is evaluated before the `try`
block, so its failure on a message without a body escapes the handler,
contradicting "every failure … including during ephemerality detection
… is caught inside the message handler". -/
theorem claim_C3_counterexample :
    (handleForwarder "owner@c.us" noBodyMsg (.ok none) (.ok ()) "T").uncaught
      = true := by
  decide

/-- C3 (amended): In `server.js` the whole handler body is inside
`try/catch`, so no failure ever escapes, whatever the message and the
download/delivery outcomes.  In the `part_000` variants, failures of
download and delivery are likewise contained, but only because the
heuristic happens before `try`; on any message whose body attribute is
present the heuristic cannot throw and nothing escapes.  Events are
dispatched independently, so a failing message never prevents the
processing of the next one. -/
theorem claim_C3_amended :
    (∀ owner msg dl send t, (handleServer owner msg dl send t).uncaught = false) ∧
    (∀ owner msg dl send t b, msg.body = some b →
      (handleForwarder owner msg dl send t).uncaught = false) ∧
    (∀ msg dl up t b, msg.body = some b →
      (handleDrive msg dl up t).uncaught = false) ∧
    (∀ owner e1 e2, runServer owner [e1, e2] =
      [handleServer owner e1.msg e1.dl e1.send e1.timestamp,
        handleServer owner e2.msg e2.dl e2.send e2.timestamp]) ∧
    (∀ owner e1 e2, runForwarder owner [e1, e2] =
      [handleForwarder owner e1.msg e1.dl e1.send e1.timestamp,
        handleForwarder owner e2.msg e2.dl e2.send e2.timestamp]) := by
  refine ⟨?_, ?_, ?_, ?_, ?_⟩
  · intro owner msg dl send t
    unfold handleServer
    repeat' split
    all_goals rfl
  · intro owner msg dl send t b hb
    have hh := heurIsViewOnce_some msg b hb
    unfold handleForwarder
    rw [hh]
    cases (jsIncludes (jsToLower b) "view once" || jsIncludes msg.idId "viewonce") <;>
    · repeat' split
      all_goals first | rfl | simp_all
  · intro msg dl up t b hb
    have hh := heurIsViewOnce_some msg b hb
    unfold handleDrive
    rw [hh]
    cases (jsIncludes (jsToLower b) "view once" || jsIncludes msg.idId "viewonce") <;>
    · repeat' split
      all_goals first | rfl | simp_all
  · intro owner e1 e2
    rfl
  · intro owner e1 e2
    rfl

theorem claim_C3_amended_witness :
    (handleServer "owner@c.us" structFlagMsg (.error ()) (.error ()) "T").uncaught
      = false ∧
    (handleForwarder "owner@c.us" heurMsg (.error ()) (.error ()) "T").uncaught
      = false ∧
    (handleDrive heurMsg (.error ()) (.error ()) "T").uncaught = false :=
  ⟨claim_C3_amended.1 "owner@c.us" structFlagMsg (.error ()) (.error ()) "T",
    claim_C3_amended.2.1 "owner@c.us" heurMsg (.error ()) (.error ()) "T"
      "View Once photo" rfl,
    claim_C3_amended.2.2.1 heurMsg (.error ()) (.error ()) "T"
      "View Once photo" rfl⟩

/-- C5 counterexample: the forwarder variant delivers a payload that
supplies no filename, and the outgoing media object's filename is
absent — `media.filename` is passed to `MessageMedia` as is, no default
is substituted (only `server.js` writes `media.filename ||
"viewonce"`). -/
theorem claim_C5_counterexample :
    (handleForwarder "owner@c.us" heurMsg (.ok (some pngPayload)) (.ok ())
      "T").sendCalls.map (fun c => c.media.filename) = [none] := by
  decide

/-- C5 (amended): Both forwarding variants build the outgoing media
object from the downloaded payload's MIME type and raw content.
`server.js` sets its filename to the payload's filename with the
default `"viewonce"` substituted when the payload supplies none (or an
empty one); the forwarder variant passes the payload's filename through
unchanged, leaving it absent when the payload supplies none. -/
theorem claim_C5_amended :
    (∀ owner msg m send t, msg.hasMedia = true → serverIsViewOnce msg = true →
      m.data ≠ "" →
      (handleServer owner msg (.ok (some m)) send t).sendCalls =
        [⟨owner, ⟨m.mimetype, m.data, some (jsOr m.filename "viewonce")⟩,
          mkCaptionServer msg.from_ t⟩]) ∧
    (∀ owner msg m send t, (msg.type = MsgType.image ∨ msg.type = MsgType.video) →
      heurIsViewOnce msg = .ok true → m.data ≠ "" →
      (handleForwarder owner msg (.ok (some m)) send t).sendCalls =
        [⟨owner, ⟨m.mimetype, m.data, m.filename⟩,
          mkCaptionForwarder msg.from_ t⟩]) := by
  constructor
  · intro owner msg m send t hm hv hd
    cases send <;> simp [handleServer, hm, hv, hd]
  · intro owner msg m send t hty hq hd
    cases send <;> simp [handleForwarder, hty, hq, hd]

theorem claim_C5_amended_witness :
    (handleServer "owner@c.us" structFlagMsg (.ok (some jpegPayload)) (.ok ())
      "10/12/2026").sendCalls =
      [⟨"owner@c.us", ⟨"image/jpeg", "QUJDRA==", some "photo.jpg"⟩,
        mkCaptionServer "15551234567@c.us" "10/12/2026"⟩] ∧
    (handleForwarder "owner@c.us" heurMsg (.ok (some pngPayload)) (.ok ())
      "10/12/2026").sendCalls =
      [⟨"owner@c.us", ⟨"image/png", "UE5HREFUQQ==", none⟩,
        mkCaptionForwarder "15559876543@c.us" "10/12/2026"⟩] := by
  constructor
  · have h := claim_C5_amended.1 "owner@c.us" structFlagMsg jpegPayload (.ok ())
      "10/12/2026" rfl (by decide) (by decide)
    rw [h]
    rfl
  · have h := claim_C5_amended.2 "owner@c.us" heurMsg pngPayload (.ok ())
      "10/12/2026" (Or.inl rfl) (by decide) (by decide)
    rw [h]
    rfl
